import Mathlib

/-!
Verification of the zone-aware background music controller
(`MusicManager` in `pokemon_city_game/game/audio_manager.py`).

Shallow embedding conventions:
* Volumes are rationals (the Python floats `0.6`, `0.2`, … become `3/5`,
  `1/5`, …); every volume computation in the source is a finite exact
  arithmetic expression, so `ℚ` captures it.
* The asset directory (`music_dir`) is a list of file names (`files`).
* The two `pygame.mixer` channels are modelled by a `Channels` record;
  every call the controller issues against the mixer is additionally
  recorded as a `MixerAction`, so "no lane action happened" is the action
  list being empty.
* The JSON configuration is an inductive: the file can be missing,
  unparseable, or parsed into a list of `(zone, optional music field)`
  entries (this is what `json.load` + `data.get("music", "")` exposes).
* Python `dict` assignment (`zone_music[zone] = track_name`) is modelled
  by `dictInsert`, which replaces an existing binding in place or appends.
-/

namespace PokemonCityAudio

/-- A lane of the mixer: channel 0 (base) or channel 1 (idle). -/
inductive Lane where
  | base : Lane
  | idle : Lane
deriving DecidableEq, Repr

/-- One call issued against a mixer channel.  `play l s` is
`channel.play(sound_for_sample_s, loops=-1)`, `stop l` is `channel.stop()`,
`setVolume l v` is `channel.set_volume(v)`. -/
inductive MixerAction where
  | play : Lane → String → MixerAction
  | stop : Lane → MixerAction
  | setVolume : Lane → ℚ → MixerAction
deriving DecidableEq, Repr

/-- State of the two mixer channels: which sample (identified by its file
path) each channel is looping, and the channel volume.  `none` means the
channel is stopped, so `get_busy()` is `Option.isSome`. -/
structure Channels where
  basePlaying : Option String
  baseVolume : ℚ
  idlePlaying : Option String
  idleVolume : ℚ
deriving DecidableEq, Repr

/-- The mutable fields of `MusicManager`.  `musicChannelInit` /
`idleChannelInit` record whether `init_channels` has assigned the two
channel fields (they are `None` before that). -/
structure MusicState where
  base : String
  mainSound : Option String
  idleSound : Option String
  musicChannelInit : Bool
  idleChannelInit : Bool
  chans : Channels
  normal_volume : ℚ
  muffled_volume : ℚ
  current_volume : ℚ
  is_idle_version : Bool
deriving DecidableEq, Repr

/-- Python `s.lower()`: char-by-char lowercasing (structural on the char
list, so it evaluates by kernel reduction). -/
def pyLower (s : String) : String :=
  String.mk (s.data.map Char.toLower)

/-- Python `s.endswith(suffix)`. -/
def pyEndsWith (s suffix : String) : Bool :=
  List.isSuffixOf suffix.data s.data

/-- Python `s[:-n]`: drop the last `n` characters. -/
def pyDropRight (s : String) (n : Nat) : String :=
  String.mk (s.data.take (s.data.length - n))

/-- Python `s.strip()`: remove leading and trailing whitespace. -/
def pyStrip (s : String) : String :=
  String.mk
    (((s.data.dropWhile Char.isWhitespace).reverse.dropWhile
      Char.isWhitespace).reverse)

/-- Python `s.replace(a, b)` for one-character `a` and `b` (the only form
the source uses). -/
def pyReplaceChar (s : String) (a b : Char) : String :=
  String.mk (s.data.map (fun c => if c = a then b else c))

/-- Python `track_name.endswith('.mp3')` … `track_name[:-4]` — remove one trailing
`.mp3` extension if present. -/
def stripMp3 (s : String) : String :=
  if pyEndsWith s ".mp3" then pyDropRight s 4 else s

/-- Source method `find_music_file_case_insensitive`: scan the directory for
`name.mp3` case-insensitively, then with underscores turned into spaces,
then with spaces turned into underscores.  Returns the matching file name. -/
def find_music_file_case_insensitive (files : List String) (track_name : String) :
    Option String :=
  match files.find? (fun f =>
      pyLower f == pyLower (track_name ++ ".mp3")) with
  | some f => some f
  | none =>
    match files.find? (fun f =>
        pyLower f == pyLower (pyReplaceChar track_name '_' ' ' ++ ".mp3")) with
    | some f => some f
    | none =>
      files.find? (fun f =>
        pyLower f == pyLower (pyReplaceChar track_name ' ' '_' ++ ".mp3"))

/-- Source method `get_full_path` followed by the caller's `path.exists` check: the asset
for `name` resolves iff `name.mp3` is in the directory (exact match) or the
case/spacing-insensitive search finds a file.  `none` means the returned
path does not exist on disk. -/
def resolveAsset (files : List String) (name : String) : Option String :=
  if (name ++ ".mp3") ∈ files then some (name ++ ".mp3")
  else find_music_file_case_insensitive files name

/-- One zone entry of the parsed `maps.json`: the zone name and the value
of `data.get("music", "")` (absent field ↦ `none`). -/
abbrev ConfigEntry := String × Option String

/-- The configuration source as the loader can observe it. -/
inductive ConfigInput where
  | missingFile : ConfigInput
  | parseError : ConfigInput
  | parsed : List ConfigEntry → ConfigInput
deriving DecidableEq, Repr

/-- Python dict assignment `m[k] = v`: replace an existing binding for `k`
in place, otherwise append. -/
def dictInsert (m : List (String × String)) (k v : String) :
    List (String × String) :=
  if m.any (fun p => p.1 = k) then
    m.map (fun p => if p.1 = k then (k, v) else p)
  else m ++ [(k, v)]

/-- The loop body of `create_zone_music_map`: take `data.get("music","")`,
strip whitespace, skip if empty, strip one `.mp3` suffix, store. -/
def zoneMusicStep (m : List (String × String)) (e : ConfigEntry) :
    List (String × String) :=
  let track_name := pyStrip (e.2.getD "")
  if track_name ≠ "" then dictInsert m e.1 (stripMp3 track_name) else m

/-- Source method `create_zone_music_map`: build `{zone: track}` from the config; on a
missing file, a parse error, or an empty result, fall back to the single
default entry `{"coroTown": "CoroTown"}`. -/
def create_zone_music_map (cfg : ConfigInput) : List (String × String) :=
  let zone_music : List (String × String) :=
    match cfg with
    | .parsed entries => entries.foldl zoneMusicStep []
    | _ => []
  if zone_music.isEmpty then [("coroTown", "CoroTown")] else zone_music

/-- Source method `load_base_track`: if the asset for `self.base` resolves (directly or
via the case-insensitive retry), load it into `main_sound`; otherwise
`main_sound` is left unchanged (the source never clears it on failure). -/
def load_base_track (files : List String) (s : MusicState) : MusicState :=
  match resolveAsset files s.base with
  | some p => { s with mainSound := some p }
  | none => s

/-- Source method `play_base_track`: if a main sound is loaded and channel 0 exists, play
it looping at `current_volume`. -/
def play_base_track (s : MusicState) : MusicState × List MixerAction :=
  match s.mainSound, s.musicChannelInit with
  | some snd, true =>
    ({ s with chans := { s.chans with
        basePlaying := some snd, baseVolume := s.current_volume } },
      [MixerAction.play Lane.base snd,
       MixerAction.setVolume Lane.base s.current_volume])
  | _, _ => (s, [])

/-- Source method `stop_base_track`: stop channel 0 if it exists. -/
def stop_base_track (s : MusicState) : MusicState × List MixerAction :=
  if s.musicChannelInit then
    ({ s with chans := { s.chans with basePlaying := none } },
      [MixerAction.stop Lane.base])
  else (s, [])

/-- Volume clamping `max(0.0, min(1.0, v))` applied at each fade step. -/
def clamp01 (v : ℚ) : ℚ := max 0 (min 1 v)

/-- The fade loop body, `n` remaining iterations: add `volume_step`, clamp,
issue `set_volume`.  Returns the final `current_volume` and the issued
actions in order. -/
def fadeSteps : Nat → ℚ → ℚ → ℚ × List MixerAction
  | 0, v, _ => (v, [])
  | n + 1, v, step =>
    let v1 := clamp01 (v + step)
    let r := fadeSteps n v1 step
    (r.1, MixerAction.setVolume Lane.base v1 :: r.2)

/-- Source method `fade_to`: blocking linear ramp of channel 0 from `current_volume` to
`target_volume` in 10 equal steps (no-op when channel 0 is `None`). -/
def fade_to (s : MusicState) (target_volume : ℚ) : MusicState × List MixerAction :=
  if s.musicChannelInit then
    let volume_step := (target_volume - s.current_volume) / 10
    let r := fadeSteps 10 s.current_volume volume_step
    ({ s with
        current_volume := r.1,
        chans := { s.chans with baseVolume := r.1 } }, r.2)
  else (s, [])

/-- Source method `set_zone_music`: resolve the zone's track (map entry, else lower-cased
zone name, then strip one `.mp3` suffix); if it differs from `self.base`,
switch the base lane to it and — only when a main sound is then loaded —
replay and clear the idle flags. -/
def set_zone_music (files : List String) (zone_music_map : List (String × String))
    (s : MusicState) (zone_name : String) : MusicState × List MixerAction :=
  let track_name := stripMp3 ((List.lookup zone_name zone_music_map).getD
    (pyLower zone_name))
  if track_name = s.base then (s, [])
  else
    let s1 := { s with base := track_name }
    let r2 := stop_base_track s1
    let s3 := load_base_track files r2.1
    match s3.mainSound with
    | some _ =>
      let r4 := play_base_track s3
      ({ r4.1 with
          is_idle_version := false,
          current_volume := r4.1.normal_volume },
        r2.2 ++ r4.2)
    | none => (s3, r2.2)

/-- Source method `play_idle_track`: stop channel 1 (if it exists), resolve the asset
(exact, then case/spacing-insensitive); if found, load it and play it
looping on channel 1 at `muffled_volume`.  If channel 1 is `None` the
`play` call raises inside the `try` and is swallowed, leaving only the
loaded `idle_sound`. -/
def play_idle_track (files : List String) (s : MusicState) (track_name : String) :
    MusicState × List MixerAction :=
  let r0 : MusicState × List MixerAction :=
    if s.idleChannelInit then
      ({ s with chans := { s.chans with idlePlaying := none } },
        [MixerAction.stop Lane.idle])
    else (s, [])
  match resolveAsset files track_name with
  | some p =>
    if r0.1.idleChannelInit then
      ({ r0.1 with
          idleSound := some p,
          chans := { r0.1.chans with
            idlePlaying := some p, idleVolume := r0.1.muffled_volume } },
        r0.2 ++ [MixerAction.play Lane.idle p,
                 MixerAction.setVolume Lane.idle r0.1.muffled_volume])
    else ({ r0.1 with idleSound := some p }, r0.2)
  | none => (r0.1, r0.2)

/-- Source method `trigger_idle_audio`: early return if channel 0 is `None`; option 1
fades the base lane to `muffled_volume`, options 2/3 start the fixed idle
tracks on channel 1; any other option does nothing — but
`is_idle_version` is set in every non-early-return case. -/
def trigger_idle_audio (files : List String) (s : MusicState) (idle_option : ℤ) :
    MusicState × List MixerAction :=
  if s.musicChannelInit then
    let r :=
      if idle_option = 1 then fade_to s s.muffled_volume
      else if idle_option = 2 then play_idle_track files s "idleDaniel"
      else if idle_option = 3 then play_idle_track files s "idle_track_2"
      else (s, [])
    ({ r.1 with is_idle_version := true }, r.2)
  else (s, [])

/-- Source method `reset_to_base_audio`: only acts when `is_idle_version`; stop the idle
lane if busy, restart the base lane if it is not busy and a sound is
loaded, fade back to `normal_volume`, then set `current_volume` to exactly
`normal_volume` and clear the flag. -/
def reset_to_base_audio (s : MusicState) : MusicState × List MixerAction :=
  if s.is_idle_version then
    let r1 : MusicState × List MixerAction :=
      if s.idleChannelInit ∧ s.chans.idlePlaying.isSome then
        ({ s with chans := { s.chans with idlePlaying := none } },
          [MixerAction.stop Lane.idle])
      else (s, [])
    let r2 : MusicState × List MixerAction :=
      if ¬ r1.1.chans.basePlaying.isSome ∧ r1.1.mainSound.isSome then
        let p := play_base_track r1.1
        (p.1, r1.2 ++ p.2)
      else r1
    let r3 := fade_to r2.1 r2.1.normal_volume
    ({ r3.1 with
        current_volume := r3.1.normal_volume,
        is_idle_version := false }, r2.2 ++ r3.2)
  else (s, [])

/-- Source method `choose_idle_option` draws from `random.choices([1, 2, 3],
weights=[5, 2, 2])`: the population of idle options. -/
def idle_option_population : List ℤ := [1, 2, 3]

/-- The weights passed to `random.choices` in `choose_idle_option`. -/
def idle_option_weights : List ℚ := [5, 2, 2]

/-- Probability that `choose_idle_option` returns `i`: total weight of the
population elements equal to `i`, over the total weight. -/
def idle_option_prob (i : ℤ) : ℚ :=
  ((idle_option_population.zip idle_option_weights).foldl
    (fun acc p => if p.1 = i then acc + p.2 else acc) 0) /
    idle_option_weights.sum

/-- A configuration from which the loader extracts no zone/track entry:
the file is missing, the JSON is unparseable, or every entry's `music`
field is absent or whitespace-only. -/
def configNoUsableEntries : ConfigInput → Bool
  | .parsed entries => entries.all (fun e => pyStrip (e.2.getD "") == "")
  | _ => true

/-- A controller state as produced by a successful `__init__`: base track
loaded and playing, both channels initialized, active at normal volume. -/
def sampleState : MusicState :=
  { base := "corotown", mainSound := some "CoroTown.mp3", idleSound := none,
    musicChannelInit := true, idleChannelInit := true,
    chans := { basePlaying := some "CoroTown.mp3", baseVolume := 3 / 5,
               idlePlaying := none, idleVolume := 0 },
    normal_volume := 3 / 5, muffled_volume := 1 / 5, current_volume := 3 / 5,
    is_idle_version := false }

/-- A controller state in which the base asset never loaded
(`main_sound is None`) and the controller is in a muffled idle state. -/
def idleNoSampleState : MusicState :=
  { base := "corotown", mainSound := none, idleSound := none,
    musicChannelInit := true, idleChannelInit := true,
    chans := { basePlaying := none, baseVolume := 1 / 5,
               idlePlaying := none, idleVolume := 0 },
    normal_volume := 3 / 5, muffled_volume := 1 / 5, current_volume := 1 / 5,
    is_idle_version := true }

/-! ### Helper lemmas: which fields each operation leaves untouched -/

theorem stop_base_track_base (s : MusicState) :
    (stop_base_track s).1.base = s.base := by
  rw [stop_base_track]; split <;> rfl

theorem stop_base_track_mainSound (s : MusicState) :
    (stop_base_track s).1.mainSound = s.mainSound := by
  rw [stop_base_track]; split <;> rfl

theorem stop_base_track_normal_volume (s : MusicState) :
    (stop_base_track s).1.normal_volume = s.normal_volume := by
  rw [stop_base_track]; split <;> rfl

theorem stop_base_track_current_volume (s : MusicState) :
    (stop_base_track s).1.current_volume = s.current_volume := by
  rw [stop_base_track]; split <;> rfl

theorem stop_base_track_musicChannelInit (s : MusicState) :
    (stop_base_track s).1.musicChannelInit = s.musicChannelInit := by
  rw [stop_base_track]; split <;> rfl

theorem stop_base_track_is_idle_version (s : MusicState) :
    (stop_base_track s).1.is_idle_version = s.is_idle_version := by
  rw [stop_base_track]; split <;> rfl

theorem load_base_track_of_resolve_none (files : List String) (s : MusicState)
    (h : resolveAsset files s.base = none) :
    load_base_track files s = s := by
  rw [load_base_track, h]

theorem load_base_track_of_resolve_some (files : List String) (s : MusicState)
    (p : String) (h : resolveAsset files s.base = some p) :
    load_base_track files s = { s with mainSound := some p } := by
  rw [load_base_track, h]

theorem load_base_track_base (files : List String) (s : MusicState) :
    (load_base_track files s).base = s.base := by
  rw [load_base_track]; cases resolveAsset files s.base <;> rfl

theorem load_base_track_normal_volume (files : List String) (s : MusicState) :
    (load_base_track files s).normal_volume = s.normal_volume := by
  rw [load_base_track]; cases resolveAsset files s.base <;> rfl

theorem load_base_track_current_volume (files : List String) (s : MusicState) :
    (load_base_track files s).current_volume = s.current_volume := by
  rw [load_base_track]; cases resolveAsset files s.base <;> rfl

theorem load_base_track_musicChannelInit (files : List String) (s : MusicState) :
    (load_base_track files s).musicChannelInit = s.musicChannelInit := by
  rw [load_base_track]; cases resolveAsset files s.base <;> rfl

theorem play_base_track_base (s : MusicState) :
    (play_base_track s).1.base = s.base := by
  rw [play_base_track]
  split <;> rfl

theorem play_base_track_normal_volume (s : MusicState) :
    (play_base_track s).1.normal_volume = s.normal_volume := by
  rw [play_base_track]
  split <;> rfl

theorem play_base_track_musicChannelInit (s : MusicState) :
    (play_base_track s).1.musicChannelInit = s.musicChannelInit := by
  rw [play_base_track]
  split <;> rfl

theorem play_base_track_of_some (s : MusicState) (snd : String)
    (h1 : s.mainSound = some snd) (h2 : s.musicChannelInit = true) :
    play_base_track s =
      ({ s with chans := { s.chans with
          basePlaying := some snd, baseVolume := s.current_volume } },
        [MixerAction.play Lane.base snd,
         MixerAction.setVolume Lane.base s.current_volume]) := by
  rw [play_base_track, h1, h2]

theorem fade_to_normal_volume (s : MusicState) (t : ℚ) :
    (fade_to s t).1.normal_volume = s.normal_volume := by
  rw [fade_to]; split <;> rfl

theorem fade_to_musicChannelInit (s : MusicState) (t : ℚ) :
    (fade_to s t).1.musicChannelInit = s.musicChannelInit := by
  rw [fade_to]; split <;> rfl

theorem fadeSteps_length (n : Nat) (v step : ℚ) :
    (fadeSteps n v step).2.length = n := by
  induction n generalizing v with
  | zero => rfl
  | succ n ih => simp [fadeSteps, ih]

theorem fade_to_actions_ne_nil (s : MusicState) (t : ℚ)
    (h : s.musicChannelInit = true) : (fade_to s t).2 ≠ [] := by
  rw [fade_to]
  simp only [h, if_true]
  intro hnil
  have := fadeSteps_length 10 s.current_volume ((t - s.current_volume) / 10)
  rw [hnil] at this
  simp at this

/-! ### Helper lemmas for the configuration loader -/

theorem zoneMusicStep_of_empty (m : List (String × String)) (e : ConfigEntry)
    (h : pyStrip (e.2.getD "") = "") : zoneMusicStep m e = m := by
  rw [zoneMusicStep]
  simp [h]

theorem foldl_zoneMusicStep_all_empty (entries : List ConfigEntry)
    (m : List (String × String))
    (h : entries.all (fun e => pyStrip (e.2.getD "") == "") = true) :
    entries.foldl zoneMusicStep m = m := by
  induction entries generalizing m with
  | nil => rfl
  | cons e es ih =>
    rw [List.all_cons, Bool.and_eq_true] at h
    rw [List.foldl_cons, zoneMusicStep_of_empty m e (by exact eq_of_beq h.1)]
    exact ih m h.2

theorem create_zone_music_map_ne_nil (cfg : ConfigInput) :
    create_zone_music_map cfg ≠ [] := by
  simp only [create_zone_music_map]
  split
  · simp
  · next h =>
    intro hnil
    rw [hnil] at h
    simp at h

theorem mem_dictInsert (m : List (String × String)) (k v : String)
    (p : String × String) (hp : p ∈ dictInsert m k v) :
    p ∈ m ∨ p = (k, v) := by
  rw [dictInsert] at hp
  split at hp
  · rw [List.mem_map] at hp
    obtain ⟨q, hq, hpq⟩ := hp
    by_cases hk : q.1 = k
    · rw [if_pos hk] at hpq
      exact Or.inr hpq.symm
    · rw [if_neg hk] at hpq
      exact Or.inl (hpq ▸ hq)
  · rw [List.mem_append] at hp
    rcases hp with hm | hkv
    · exact Or.inl hm
    · exact Or.inr (List.mem_singleton.mp hkv)

theorem mem_foldl_zoneMusicStep (entries : List ConfigEntry)
    (m : List (String × String)) (p : String × String)
    (hp : p ∈ entries.foldl zoneMusicStep m) :
    p ∈ m ∨ p ∈ entries.map (fun e => (e.1, stripMp3 (pyStrip (e.2.getD "")))) := by
  induction entries generalizing m with
  | nil => exact Or.inl hp
  | cons e es ih =>
    rw [List.foldl_cons] at hp
    rcases ih (zoneMusicStep m e) hp with hm | hmem
    · simp only [zoneMusicStep] at hm
      split at hm
      · rcases mem_dictInsert _ _ _ _ hm with h1 | h2
        · exact Or.inl h1
        · exact Or.inr (by rw [List.map_cons]; exact h2 ▸ List.mem_cons_self _ _)
      · exact Or.inl hm
    · exact Or.inr (by rw [List.map_cons]; exact List.mem_cons_of_mem _ hmem)

theorem load_base_track_mainSound_isSome (files : List String) (s : MusicState)
    (h : (resolveAsset files s.base).isSome = true ∨ s.mainSound.isSome = true) :
    (load_base_track files s).mainSound.isSome = true := by
  rw [load_base_track]
  cases hr : resolveAsset files s.base with
  | some p => rfl
  | none =>
    rw [hr] at h
    simpa using h

/-! ### Claim theorems -/

/-- C1: `choose_idle_option` draws from the population `[1, 2, 3]` — exactly
the three variants — but with weights `[5, 2, 2]`, so the probabilities are
`5/9`, `2/9`, `2/9`, not the `50%/25%/25%` stated by the spec and by the
function's own docstring (`1 -> 50% chance, 2 -> 25% chance,
3 -> 25% chance`). -/
theorem C1_choose_idle_option_distribution :
    idle_option_population = [1, 2, 3] ∧
    idle_option_weights = [5, 2, 2] ∧
    idle_option_prob 1 = 5 / 9 ∧
    idle_option_prob 2 = 2 / 9 ∧
    idle_option_prob 3 = 2 / 9 ∧
    ¬ (idle_option_prob 1 = 1 / 2 ∧ idle_option_prob 2 = 1 / 4 ∧
       idle_option_prob 3 = 1 / 4) := by
  refine ⟨rfl, rfl, ?_, ?_, ?_, ?_⟩ <;>
    norm_num [idle_option_prob, idle_option_population, idle_option_weights]

/-- C5: for every configuration input, `create_zone_music_map` returns a
non-empty map, and whenever the loader can extract no usable entry
(missing file, parse error, or no non-blank `music` field) it returns
exactly the single-entry fallback `{"coroTown": "CoroTown"}`.  The
embedding is a total function, so no error reaches the caller. -/
theorem C5_loader_fallback (cfg : ConfigInput) :
    create_zone_music_map cfg ≠ [] ∧
    (configNoUsableEntries cfg = true →
      create_zone_music_map cfg = [("coroTown", "CoroTown")]) := by
  refine ⟨create_zone_music_map_ne_nil cfg, fun h => ?_⟩
  cases cfg with
  | missingFile => rfl
  | parseError => rfl
  | parsed entries =>
    simp only [configNoUsableEntries] at h
    simp only [create_zone_music_map,
      foldl_zoneMusicStep_all_empty entries [] h]
    rfl

/-- Witness for C5 at a concrete input: the missing-file configuration
yields the fallback map. -/
theorem C5_loader_fallback_witness :
    create_zone_music_map ConfigInput.missingFile = [("coroTown", "CoroTown")] :=
  (C5_loader_fallback ConfigInput.missingFile).2 (by decide)

/-- C6: calling `set_zone_music` with a zone whose resolved track (map
entry, else lower-cased zone name, with a trailing `.mp3` stripped) equals
the current base track returns the state completely unchanged and issues
no mixer call at all. -/
theorem C6_same_track_noop (files : List String)
    (zmap : List (String × String)) (s : MusicState) (zone : String)
    (h : stripMp3 ((List.lookup zone zmap).getD (pyLower zone)) = s.base) :
    set_zone_music files zmap s zone = (s, []) := by
  simp only [set_zone_music, h, if_pos]

/-- Witness for C6 at a concrete input: zone `"CoroTown"` resolves to
`"corotown"`, the current base track, and nothing happens. -/
theorem C6_same_track_noop_witness :
    set_zone_music [] [] sampleState "CoroTown" = (sampleState, []) :=
  C6_same_track_noop [] [] sampleState "CoroTown" (by decide)

/-- C9: loading the configuration `{"town": {"music": "Theme.mp3"}}` stores
the track `"Theme"` for zone `"town"`; in general every entry of the built
map (fallback aside) is the entry's trimmed `music` field with one
trailing `.mp3` suffix removed. -/
theorem C9_extension_stripped :
    create_zone_music_map (ConfigInput.parsed [("town", some "Theme.mp3")])
      = [("town", "Theme")] ∧
    ∀ (entries : List ConfigEntry) (p : String × String),
      p ∈ create_zone_music_map (ConfigInput.parsed entries) →
      p = ("coroTown", "CoroTown") ∨
      p ∈ entries.map (fun e => (e.1, stripMp3 (pyStrip (e.2.getD "")))) := by
  refine ⟨by decide, fun entries p hp => ?_⟩
  simp only [create_zone_music_map] at hp
  split at hp
  · exact Or.inl (List.mem_singleton.mp hp)
  · rcases mem_foldl_zoneMusicStep entries [] p hp with h0 | hmem
    · exact absurd h0 (List.not_mem_nil p)
    · exact Or.inr hmem

/-- Witness for C9 at a concrete input: the pair `("town", "Theme")` built
from `{"town": {"music": "Theme.mp3"}}` is the stripped image of the
config entry. -/
theorem C9_extension_stripped_witness :
    ("town", "Theme") = (("coroTown", "CoroTown") : String × String) ∨
    ("town", "Theme") ∈ [(("town", some "Theme.mp3") : ConfigEntry)].map
      (fun e => (e.1, stripMp3 (pyStrip (e.2.getD "")))) :=
  C9_extension_stripped.2 [("town", some "Theme.mp3")] ("town", "Theme")
    (by decide)

/-- C2, counterexample: starting from a muffled idle state whose base
sample never loaded (`main_sound is None`), switching to zone `"route1"`
(resolved track differs from the current base) leaves `is_idle_version`
set and the volume muffled, because the idle-flag reset is guarded by
`if self.main_sound:`. -/
theorem C2_counterexample :
    stripMp3 ((List.lookup "route1" []).getD (pyLower "route1"))
      ≠ idleNoSampleState.base ∧
    (set_zone_music [] [] idleNoSampleState "route1").1.is_idle_version = true ∧
    (set_zone_music [] [] idleNoSampleState "route1").1.current_volume
      ≠ idleNoSampleState.normal_volume := by
  refine ⟨by decide, rfl, ?_⟩
  have h1 : (set_zone_music [] [] idleNoSampleState "route1").1.current_volume
      = 1 / 5 := rfl
  have h2 : idleNoSampleState.normal_volume = 3 / 5 := rfl
  rw [h1, h2]
  norm_num

/-- C2 as amended: if additionally a base sample is present after the track
load (the new track's asset resolves, or a previously loaded sample
exists), `set_zone_music` to a zone whose resolved track differs from the
current base clears the idle flag and sets `current_volume` to exactly
`normal_volume`, regardless of the previous idle state. -/
theorem C2_zone_switch_resets_idle (files : List String)
    (zmap : List (String × String)) (s : MusicState) (zone : String)
    (ht : stripMp3 ((List.lookup zone zmap).getD (pyLower zone)) ≠ s.base)
    (hsound : (resolveAsset files
        (stripMp3 ((List.lookup zone zmap).getD (pyLower zone)))).isSome = true
      ∨ s.mainSound.isSome = true) :
    (set_zone_music files zmap s zone).1.is_idle_version = false ∧
    (set_zone_music files zmap s zone).1.current_volume = s.normal_volume := by
  set t := stripMp3 ((List.lookup zone zmap).getD (pyLower zone)) with htt
  have hsome :
      (load_base_track files (stop_base_track { s with base := t }).1).mainSound.isSome
        = true := by
    apply load_base_track_mainSound_isSome
    rw [stop_base_track_base, stop_base_track_mainSound]
    exact hsound
  rcases Option.isSome_iff_exists.mp hsome with ⟨snd, hsnd⟩
  simp only [set_zone_music]
  rw [← htt, if_neg ht, hsnd]
  refine ⟨rfl, ?_⟩
  rw [play_base_track_normal_volume, load_base_track_normal_volume,
    stop_base_track_normal_volume]

/-- Witness for C2 as amended, at a concrete input: switching the active
controller to zone `"Route1"` whose asset exists. -/
theorem C2_zone_switch_resets_idle_witness :
    (set_zone_music ["route1.mp3"] [] sampleState "Route1").1.is_idle_version
      = false ∧
    (set_zone_music ["route1.mp3"] [] sampleState "Route1").1.current_volume
      = sampleState.normal_volume :=
  C2_zone_switch_resets_idle ["route1.mp3"] [] sampleState "Route1"
    (by decide) (Or.inl (by decide))

/-- C3, counterexample: zone `"route1"` resolves to a track whose asset is
absent, yet after `set_zone_music` the base lane is not silent — the
previously loaded sample `CoroTown.mp3` is replayed on it, because
`load_base_track` leaves the old `main_sound` in place on failure. -/
theorem C3_counterexample :
    resolveAsset ["CoroTown.mp3"] (stripMp3 ((List.lookup "route1" []).getD
      (pyLower "route1"))) = none ∧
    (set_zone_music ["CoroTown.mp3"] [] sampleState "route1").1.chans.basePlaying
      = some "CoroTown.mp3" ∧
    MixerAction.play Lane.base "CoroTown.mp3"
      ∈ (set_zone_music ["CoroTown.mp3"] [] sampleState "route1").2 := by
  refine ⟨by decide, rfl, ?_⟩
  have hl : (set_zone_music ["CoroTown.mp3"] [] sampleState "route1").2
      = [MixerAction.stop Lane.base, MixerAction.play Lane.base "CoroTown.mp3",
         MixerAction.setVolume Lane.base (3 / 5)] := rfl
  rw [hl]
  exact List.mem_cons_of_mem _ (List.mem_cons_self _ _)

/-- C3 as amended: a missing asset never raises (the embedded operations
are total); a missing idle track leaves the idle lane stopped and silent;
a missing base track on a zone switch loads no new sample — the base lane
stays silent when no sample was previously loaded, but when one was, that
old sample is replayed on the base lane. -/
theorem C3_missing_asset_graceful :
    (∀ (files : List String) (s : MusicState) (track_name : String),
      s.idleChannelInit = true →
      resolveAsset files track_name = none →
      play_idle_track files s track_name =
        ({ s with chans := { s.chans with idlePlaying := none } },
          [MixerAction.stop Lane.idle])) ∧
    (∀ (files : List String) (zmap : List (String × String)) (s : MusicState)
        (zone : String),
      stripMp3 ((List.lookup zone zmap).getD (pyLower zone)) ≠ s.base →
      resolveAsset files (stripMp3 ((List.lookup zone zmap).getD (pyLower zone)))
        = none →
      s.musicChannelInit = true →
      ((s.mainSound = none →
        set_zone_music files zmap s zone =
          ({ s with
              base := stripMp3 ((List.lookup zone zmap).getD (pyLower zone)),
              chans := { s.chans with basePlaying := none } },
            [MixerAction.stop Lane.base])) ∧
       (∀ snd, s.mainSound = some snd →
        (set_zone_music files zmap s zone).1.chans.basePlaying = some snd ∧
        MixerAction.play Lane.base snd
          ∈ (set_zone_music files zmap s zone).2))) := by
  constructor
  · intro files s track_name hic hres
    simp only [play_idle_track, hic, hres, if_true]
  · intro files zmap s zone ht hres hmc
    set t := stripMp3 ((List.lookup zone zmap).getD (pyLower zone)) with htt
    have hstop : stop_base_track { s with base := t } =
        ({ s with base := t, chans := { s.chans with basePlaying := none } },
          [MixerAction.stop Lane.base]) := by
      rw [stop_base_track]
      simp [hmc]
    have hload :
        load_base_track files (stop_base_track { s with base := t }).1 =
        (stop_base_track { s with base := t }).1 := by
      apply load_base_track_of_resolve_none
      rw [stop_base_track_base]
      exact hres
    constructor
    · intro hnone
      simp only [set_zone_music]
      rw [← htt, if_neg ht, hload, hstop]
      simp only [hnone]
    · intro snd hsnd
      simp only [set_zone_music]
      rw [← htt, if_neg ht, hload, hstop]
      simp only [hsnd, play_base_track, hmc]
      refine ⟨by trivial, ?_⟩
      simp [List.mem_cons]

/-- Witness for C3 as amended, at concrete inputs: a missing idle track
leaves the idle lane stopped, and a zone switch to a missing asset with a
previously loaded sample replays that sample. -/
theorem C3_missing_asset_graceful_witness :
    play_idle_track [] sampleState "idleDaniel" =
      ({ sampleState with
          chans := { sampleState.chans with idlePlaying := none } },
        [MixerAction.stop Lane.idle]) ∧
    (set_zone_music ["CoroTown.mp3"] [] sampleState "route2").1.chans.basePlaying
      = some "CoroTown.mp3" ∧
    MixerAction.play Lane.base "CoroTown.mp3"
      ∈ (set_zone_music ["CoroTown.mp3"] [] sampleState "route2").2 :=
  ⟨C3_missing_asset_graceful.1 [] sampleState "idleDaniel" (by decide) (by decide),
   (C3_missing_asset_graceful.2 ["CoroTown.mp3"] [] sampleState "route2"
     (by decide) (by decide) (by decide)).2 "CoroTown.mp3" (by decide)⟩

/-- C7, counterexample: zone `"town"` has the map entry `"Theme.mp3"`, but
resolution inside `set_zone_music` strips the trailing `.mp3` again, so
the resolved track is `"Theme"`, not the map entry. -/
theorem C7_counterexample :
    List.lookup "town" [("town", "Theme.mp3")] = some "Theme.mp3" ∧
    (set_zone_music [] [("town", "Theme.mp3")] sampleState "town").1.base
      = "Theme" ∧
    ("Theme" : String) ≠ "Theme.mp3" := by
  exact ⟨rfl, rfl, by decide⟩

/-- C7 as amended: resolution returns the map entry for the zone when
present and the lower-cased zone identifier otherwise, in both cases with
one trailing `.mp3` suffix removed (observable as the new base track
whenever the result differs from the current one). -/
theorem C7_resolution (files : List String) (zmap : List (String × String))
    (s : MusicState) (zone : String)
    (ht : stripMp3 ((List.lookup zone zmap).getD (pyLower zone)) ≠ s.base) :
    (set_zone_music files zmap s zone).1.base
      = stripMp3 ((List.lookup zone zmap).getD (pyLower zone)) := by
  set t := stripMp3 ((List.lookup zone zmap).getD (pyLower zone)) with htt
  simp only [set_zone_music]
  rw [← htt, if_neg ht]
  cases hms :
      (load_base_track files (stop_base_track { s with base := t }).1).mainSound with
  | none =>
    simp only [hms, load_base_track_base, stop_base_track_base]
  | some snd =>
    simp only [hms, play_base_track_base, load_base_track_base,
      stop_base_track_base]

/-- Witness for C7 as amended, at a concrete input: zone `"town"` with map
entry `"Theme.mp3"` resolves to `"Theme"`. -/
theorem C7_resolution_witness :
    (set_zone_music [] [("town", "Theme.mp3")] sampleState "town").1.base
      = stripMp3 ((List.lookup "town" [("town", "Theme.mp3")]).getD
        (pyLower "town")) :=
  C7_resolution [] [("town", "Theme.mp3")] sampleState "town" (by decide)

theorem reset_to_base_audio_of_idle (s : MusicState)
    (h : s.is_idle_version = true) :
    (reset_to_base_audio s).1.current_volume = s.normal_volume ∧
    (reset_to_base_audio s).1.is_idle_version = false := by
  rw [reset_to_base_audio]
  simp only [h, if_true]
  split <;> split <;>
    simp [fade_to_normal_volume, play_base_track_normal_volume]

theorem reset_to_base_audio_acts (s : MusicState)
    (h : s.is_idle_version = true) (hmc : s.musicChannelInit = true) :
    (reset_to_base_audio s).2 ≠ [] := by
  rw [reset_to_base_audio]
  simp only [h, if_true]
  split <;> split <;>
    (intro hn
     rw [List.append_eq_nil] at hn
     refine fade_to_actions_ne_nil _ _ ?_ hn.2
     simp [play_base_track_musicChannelInit, hmc])

/-- C4: from the Active state at normal volume (base channel initialized),
`trigger_idle_audio(1)` (muffle) followed by `reset_to_base_audio`
returns `current_volume` to exactly `normal_volume` — `reset_to_base_audio`
assigns `self.current_volume = self.normal_volume` after the fade. -/
theorem C4_muffle_resume_roundtrip (files : List String) (s : MusicState)
    (hmc : s.musicChannelInit = true)
    (hact : s.is_idle_version = false)
    (hvol : s.current_volume = s.normal_volume) :
    (reset_to_base_audio (trigger_idle_audio files s 1).1).1.current_volume
      = s.normal_volume := by
  have h1 : (trigger_idle_audio files s 1).1
      = { (fade_to s s.muffled_volume).1 with is_idle_version := true } := by
    simp [trigger_idle_audio, hmc]
  rw [h1]
  have h2 := reset_to_base_audio_of_idle
    { (fade_to s s.muffled_volume).1 with is_idle_version := true } rfl
  rw [h2.1]
  simp [fade_to_normal_volume]

/-- Witness for C4 at a concrete input: the initialized controller at
normal volume, muffled and resumed, is back at volume `3/5`. -/
theorem C4_muffle_resume_roundtrip_witness :
    (reset_to_base_audio (trigger_idle_audio [] sampleState 1).1).1.current_volume
      = sampleState.normal_volume :=
  C4_muffle_resume_roundtrip [] sampleState rfl rfl rfl

/-- C8: with both channels initialized and the fixed idle track's asset
present, `trigger_idle_audio` with option 2 (`idleDaniel`) or option 3
(`idle_track_2`) stops the idle lane, plays the resolved sample looping on
the idle lane at `muffled_volume`, and touches nothing else: the resulting
state differs from the input only in `idleSound`, `is_idle_version`, and
the idle-lane channel fields, so the base lane's sample and volume and the
controller's `current_volume` are unchanged. -/
theorem C8_separate_track_idle (files : List String) (s : MusicState)
    (o : ℤ) (p : String)
    (hmc : s.musicChannelInit = true) (hic : s.idleChannelInit = true)
    (ho : o = 2 ∨ o = 3)
    (hres : resolveAsset files (if o = 2 then "idleDaniel" else "idle_track_2")
      = some p) :
    trigger_idle_audio files s o =
      ({ s with
          idleSound := some p,
          is_idle_version := true,
          chans := { s.chans with
            idlePlaying := some p,
            idleVolume := s.muffled_volume } },
        [MixerAction.stop Lane.idle, MixerAction.play Lane.idle p,
         MixerAction.setVolume Lane.idle s.muffled_volume]) := by
  have hplay : ∀ name, resolveAsset files name = some p →
      play_idle_track files s name =
        ({ s with
            idleSound := some p,
            chans := { s.chans with
              idlePlaying := some p,
              idleVolume := s.muffled_volume } },
          [MixerAction.stop Lane.idle, MixerAction.play Lane.idle p,
           MixerAction.setVolume Lane.idle s.muffled_volume]) := by
    intro name hr
    simp [play_idle_track, hic, hr]
  rcases ho with ho | ho <;> subst ho
  · have hr : resolveAsset files "idleDaniel" = some p := by simpa using hres
    simp [trigger_idle_audio, hmc, hplay "idleDaniel" hr]
  · have hr : resolveAsset files "idle_track_2" = some p := by simpa using hres
    simp [trigger_idle_audio, hmc, hplay "idle_track_2" hr]

/-- Witness for C8 at a concrete input: option 2 with `idleDaniel.mp3`
present in the directory. -/
theorem C8_separate_track_idle_witness :
    trigger_idle_audio ["idleDaniel.mp3"] sampleState 2 =
      ({ sampleState with
          idleSound := some "idleDaniel.mp3",
          is_idle_version := true,
          chans := { sampleState.chans with
            idlePlaying := some "idleDaniel.mp3",
            idleVolume := sampleState.muffled_volume } },
        [MixerAction.stop Lane.idle,
         MixerAction.play Lane.idle "idleDaniel.mp3",
         MixerAction.setVolume Lane.idle sampleState.muffled_volume]) :=
  C8_separate_track_idle ["idleDaniel.mp3"] sampleState 2 "idleDaniel.mp3"
    rfl rfl (Or.inl rfl) (by decide)

/-- C10: with the base channel initialized, `trigger_idle_audio` with any
option outside `{1, 2, 3}` issues no mixer call and changes nothing except
setting `is_idle_version` to `True`; a subsequent `reset_to_base_audio`
therefore runs its idle-exit path: it clears the flag, sets the volume to
`normal_volume`, and issues mixer calls (the fade), although no idle
effect was ever applied. -/
theorem C10_invalid_option_sets_flag (files : List String) (s : MusicState)
    (o : ℤ) (hmc : s.musicChannelInit = true)
    (h1 : o ≠ 1) (h2 : o ≠ 2) (h3 : o ≠ 3) :
    trigger_idle_audio files s o = ({ s with is_idle_version := true }, []) ∧
    (reset_to_base_audio (trigger_idle_audio files s o).1).1.is_idle_version
      = false ∧
    (reset_to_base_audio (trigger_idle_audio files s o).1).1.current_volume
      = s.normal_volume ∧
    (reset_to_base_audio (trigger_idle_audio files s o).1).2 ≠ [] := by
  have htr : trigger_idle_audio files s o
      = ({ s with is_idle_version := true }, []) := by
    simp [trigger_idle_audio, hmc, h1, h2, h3]
  have hres := reset_to_base_audio_of_idle { s with is_idle_version := true } rfl
  have hacts := reset_to_base_audio_acts { s with is_idle_version := true }
    rfl (by simpa using hmc)
  rw [htr]
  exact ⟨rfl, hres.2, hres.1, hacts⟩

/-- Witness for C10 at a concrete input: option 0 on the initialized
active controller. -/
theorem C10_invalid_option_sets_flag_witness :
    trigger_idle_audio [] sampleState 0
      = ({ sampleState with is_idle_version := true }, []) ∧
    (reset_to_base_audio (trigger_idle_audio [] sampleState 0).1).1.is_idle_version
      = false ∧
    (reset_to_base_audio (trigger_idle_audio [] sampleState 0).1).1.current_volume
      = sampleState.normal_volume ∧
    (reset_to_base_audio (trigger_idle_audio [] sampleState 0).1).2 ≠ [] :=
  C10_invalid_option_sets_flag [] sampleState 0 rfl
    (by decide) (by decide) (by decide)

end PokemonCityAudio
